import Mathlib

/-!
Shallow embedding of the materialized server-side cursor implementation
in sql/sql_cursor.cc (Materialized_cursor, Query_result_materialize and
mysql_open_cursor), together with proofs about its fetch/open/close
behaviour.

Modelling conventions:
* `ulong` counters (`fetch_limit`, `fetch_count`, the `num_rows` argument
  of `fetch`) are natural numbers reduced modulo 2^64 where the C code
  can overflow (LP64 `unsigned long`).
* The temporary-table handler (`table->file`) is modelled as a scan
  oracle `next : Nat → Nat` mapping the current sequential-scan position
  to the integer status returned by `ha_rnd_next`: 0 means a row was
  read, `HA_ERR_END_OF_FILE` means end of data, anything else is a
  handler error.  A plain table with `R` rows is `tableOf R`.
* The `Query_result` sink is modelled by an oracle `sendFail : Nat → Bool`
  telling whether `send_data` fails for the row at a given scan position,
  and by an event trace recording the calls made on the sink
  (`begin_dataset`, `send_data`, `send_eof`, `abort_result_set`) and on
  the handler (`print_error`).
* `thd->server_status` is modelled by the two status bits this file
  manipulates: `SERVER_STATUS_CURSOR_EXISTS` and
  `SERVER_STATUS_LAST_ROW_SENT` (the code only ever sets them with `|=`).
-/

namespace SqlCursor

/-- Modulus of the `ulong` type used for the fetch counters (LP64). -/
def ULONG_MOD : Nat := 2 ^ 64

/-- Handler error code `HA_ERR_END_OF_FILE` (end of data in a scan). -/
def HA_ERR_END_OF_FILE : Nat := 137

/-- Calls observable on the external collaborators during one cursor
operation: the `Query_result` sink and the table handler. -/
inductive Event where
  /-- `result->begin_dataset()` -/
  | beginDataset : Event
  /-- `result->send_data` succeeded for the row read at this scan position -/
  | sendData : Nat → Event
  /-- `result->send_data` was called for the row at this position and failed -/
  | sendDataFailed : Nat → Event
  /-- `result->send_eof(thd)` -/
  | sendEof : Event
  /-- `result->abort_result_set(thd)` -/
  | abortResultSet : Event
  /-- `result->prepare(...)` -/
  | resultPrepare : Event
  /-- `table->file->print_error(code, MYF(0))` -/
  | printError : Nat → Event
  deriving DecidableEq, Repr

/-- Whether an event is a successful row delivery (`send_data` returned
false). -/
def isSendData : Event → Bool
  | .sendData _ => true
  | _ => false

/-- Number of rows successfully delivered to the sink in a trace. -/
def sentRows (evs : List Event) : Nat := evs.countP isSendData

/-- The trace of successful `send_data` calls for `n` consecutive rows
starting at scan position `pos`. -/
def sendEvs : Nat → Nat → List Event
  | _, 0 => []
  | pos, n + 1 => Event.sendData pos :: sendEvs (pos + 1) n

/-- State of a `Materialized_cursor`.  `pos` is the sequential-scan
position of the temporary table handler (number of rows already read by
`ha_rnd_next` since `ha_rnd_init`); `has_storage_handler` models
`table->has_storage_handler()`, which `is_open()` reports. -/
structure Materialized_cursor where
  fetch_limit : Nat
  fetch_count : Nat
  is_rnd_inited : Bool
  pos : Nat
  has_storage_handler : Bool
  deriving DecidableEq, Repr

/-- `Materialized_cursor::is_open`: `table->has_storage_handler()`. -/
def Materialized_cursor.is_open (c : Materialized_cursor) : Bool :=
  c.has_storage_handler

/-- The two `thd->server_status` bits manipulated by sql_cursor.cc. -/
structure ServerStatus where
  cursorExists : Bool
  lastRowSent : Bool
  deriving DecidableEq, Repr

/-- Result of one cursor operation: the C return value, the cursor state,
the session status bits and the trace of external calls. -/
structure StepRes where
  rc : Bool
  cursor : Materialized_cursor
  status : ServerStatus
  events : List Event
  deriving DecidableEq, Repr

/-- `Materialized_cursor::close`: ends the scan if one is active
(`ha_rnd_end`, clearing `is_rnd_inited`) and calls `close_tmp_table`,
which releases the table storage handler (so `is_open()` becomes false).
The item list / arena recycling has no observable effect on the state
modelled here. -/
def Materialized_cursor.close (c : Materialized_cursor) : Materialized_cursor :=
  let c1 := if c.is_rnd_inited then { c with is_rnd_inited := false } else c
  { c1 with has_storage_handler := false }

/-- `Materialized_cursor::open`.  `prepFails` is the result of
`result->prepare(thd, item_list, &fake_unit)` and `rndInitFails` the
result of `table->file->ha_rnd_init(true)`, which is only called when
prepare succeeded.  The source computes
`rc = result->prepare(...); rc = !rc && table->file->ha_rnd_init(true);`
so when prepare fails the second assignment short-circuits to
`rc = false`: such a call reports success (cursor-exists set, eof sent)
and sets `is_rnd_inited = !rc = true` although `ha_rnd_init` never ran,
leaving the scan unpositioned.  Only a successful `ha_rnd_init` (prepare
succeeded and init succeeded) positions the scan before the first row.
On `rc = false` the cursor-exists status bit is set and `send_eof` is
issued; on `rc = true` (prepare succeeded, `ha_rnd_init` failed)
`abort_result_set` is issued.  `fetch_limit` and `fetch_count` are
reset to zero unconditionally afterwards. -/
def Materialized_cursor.open_cursor (prepFails rndInitFails : Bool)
    (c : Materialized_cursor) (st : ServerStatus) : StepRes :=
  let rc : Bool := !prepFails && rndInitFails
  let inited : Bool := !rc
  let c1 : Materialized_cursor :=
    { c with is_rnd_inited := inited,
             pos := if !prepFails && !rndInitFails then 0 else c.pos }
  if rc = false then
    { rc := false,
      cursor := { c1 with fetch_limit := 0, fetch_count := 0 },
      status := { st with cursorExists := true },
      events := [Event.resultPrepare, Event.sendEof] }
  else
    { rc := true,
      cursor := { c1 with fetch_limit := 0, fetch_count := 0 },
      status := st,
      events := [Event.resultPrepare, Event.abortResultSet] }

/-- Outcome of the fetch loop
`for (fetch_limit += num_rows; fetch_count < fetch_limit; fetch_count++)`:
either the loop exited with a final `ha_rnd_next` status `res`
(`res = 0` when the loop condition failed), or `send_data` failed and
`fetch` returned true from inside the loop. -/
inductive LoopOut where
  | done : (res : Nat) → (pos : Nat) → (fc : Nat) → (evs : List Event) → LoopOut
  | sendFailed : (pos : Nat) → (fc : Nat) → (evs : List Event) → LoopOut
  deriving DecidableEq, Repr

/-- Prepend an event to the trace of a loop outcome. -/
def LoopOut.prepend (e : Event) : LoopOut → LoopOut
  | .done r p f evs => .done r p f (e :: evs)
  | .sendFailed p f evs => .sendFailed p f (e :: evs)

/-- Final `fetch_count` of a loop outcome. -/
def LoopOut.fcOut : LoopOut → Nat
  | .done _ _ f _ => f
  | .sendFailed _ f _ => f

/-- Event trace of a loop outcome. -/
def LoopOut.evs : LoopOut → List Event
  | .done _ _ _ e => e
  | .sendFailed _ _ e => e

/-- Body of the fetch loop, with the iteration count made structural:
the loop `for (; fetch_count < fetch_limit; fetch_count++)` runs at most
`fetch_limit - fetch_count` times since `fetch_count` increases by one
per iteration, so `fuel = fetch_limit - fetch_count` makes the guard
`fetch_count < fetch_limit` coincide with `fuel > 0`.  Each iteration
reads a row (`res = ha_rnd_next`), breaks when `res ≠ 0`, otherwise
calls `send_data` and returns true if that fails. -/
def fetchLoopGo (next : Nat → Nat) (sendFail : Nat → Bool) :
    Nat → Nat → Nat → LoopOut
  | 0, pos, fc => .done 0 pos fc []
  | fuel + 1, pos, fc =>
    let res := next pos
    if res = 0 then
      if sendFail pos then
        .sendFailed (pos + 1) fc [Event.sendDataFailed pos]
      else
        (fetchLoopGo next sendFail fuel (pos + 1) (fc + 1)).prepend
          (Event.sendData pos)
    else
      .done res pos fc []

/-- The fetch loop starting from counters `fc < fl` (or exiting at once
when `fc ≥ fl`, as the C guard does). -/
def fetchLoop (next : Nat → Nat) (sendFail : Nat → Bool)
    (fl pos fc : Nat) : LoopOut :=
  fetchLoopGo next sendFail (fl - fc) pos fc

/-- `Materialized_cursor::fetch(num_rows)`.  Adds `num_rows` to
`fetch_limit` (ulong arithmetic), runs the loop, then dispatches on the
final `ha_rnd_next` status: 0 sets cursor-exists and sends eof (cursor
stays open); `HA_ERR_END_OF_FILE` sets last-row-sent, sends eof and
closes the cursor; any other status prints the handler error, closes the
cursor and returns true.  A `send_data` failure returns true
immediately, with no close. -/
def Materialized_cursor.fetch (next : Nat → Nat) (sendFail : Nat → Bool)
    (num_rows : Nat) (c : Materialized_cursor) (st : ServerStatus) : StepRes :=
  let fl := (c.fetch_limit + num_rows) % ULONG_MOD
  match fetchLoop next sendFail fl c.pos c.fetch_count with
  | .sendFailed p f evs =>
    { rc := true,
      cursor := { c with fetch_limit := fl, pos := p, fetch_count := f },
      status := st,
      events := Event.beginDataset :: evs }
  | .done res p f evs =>
    let c1 : Materialized_cursor :=
      { c with fetch_limit := fl, pos := p, fetch_count := f }
    if res = 0 then
      { rc := false,
        cursor := c1,
        status := { st with cursorExists := true },
        events := Event.beginDataset :: (evs ++ [Event.sendEof]) }
    else if res = HA_ERR_END_OF_FILE then
      { rc := false,
        cursor := c1.close,
        status := { st with lastRowSent := true },
        events := Event.beginDataset :: (evs ++ [Event.sendEof]) }
    else
      { rc := true,
        cursor := c1.close,
        status := st,
        events := Event.beginDataset :: (evs ++ [Event.printError res]) }

/-- Scan oracle for a table whose first `k` positions hold rows and whose
scan returns status `e` at position `k` (rows are returned in physical
order; `ha_rnd_next` keeps reporting `e` past the end). -/
def scanTable (k e : Nat) : Nat → Nat :=
  fun pos => if pos < k then 0 else e

/-- Scan oracle of an ordinary materialized table with `R` rows:
`R` rows, then `HA_ERR_END_OF_FILE`. -/
def tableOf (R : Nat) : Nat → Nat := scanTable R HA_ERR_END_OF_FILE

/-- Sink oracle: `send_data` never fails. -/
def noFail : Nat → Bool := fun _ => false

/-- Sink oracle: `send_data` fails exactly for the row at position `s`. -/
def failAt (s : Nat) : Nat → Bool := fun p => p == s

/-- The part of the THD session state touched by `mysql_open_cursor`
beside the status bits: statement instrumentation locker and digest
state, modelled as abstract nullable values. -/
structure Thd where
  m_digest : Option Nat
  m_statement_psi : Option Nat
  deriving DecidableEq, Repr

/-- Classification of the current statement, as queried by
`mysql_open_cursor` from `thd->lex`: `has_dml_cmd` is
`lex->m_sql_cmd != nullptr && lex->m_sql_cmd->is_dml()`;
`lex_has_result` is `lex->result != nullptr` on entry (a materialization
result object is already attached to the prepared statement). -/
structure Stmt where
  has_dml_cmd : Bool
  may_use_cursor : Bool
  is_regular : Bool
  is_prepared : Bool
  lex_has_result : Bool
  deriving DecidableEq, Repr

/-- Observable outcome of `mysql_open_cursor`.  `ret = none` models the
null-pointer dereference reached when `mysql_execute_command` fails
while `result_materialize` is still `nullptr` (the code then evaluates
`result_materialize->materialized_cursor` unguarded); otherwise
`ret = some rc` is the returned status.  `executed` records whether
`mysql_execute_command` ran, `mediatorCreated` whether a new
`Query_result_materialize` was allocated, `usageError` whether
`my_error(ER_WRONG_ARGUMENTS, ..., "with cursor")` was raised, and
`cursorHandedBack` whether `*pcursor` was assigned. -/
structure OpenCursorRes where
  ret : Option Bool
  thd : Thd
  executed : Bool
  mediatorCreated : Bool
  usageError : Bool
  cursorHandedBack : Bool
  deriving DecidableEq, Repr

/-- `mysql_open_cursor`.  Oracles for the external collaborators:
`execRc` is the status of `mysql_execute_command`; `cursorCreated` says
whether the mediator holds a `materialized_cursor` after execution
(always false when no mediator was installed); `execDigest`/`execPsi`
are whatever `mysql_execute_command` leaves in `thd->m_digest` /
`thd->m_statement_psi`; `openFails` is the status of
`materialized_cursor->open(thd)`; `pcursorNull` is whether `*pcursor`
is null on entry. -/
def mysql_open_cursor (stmt : Stmt) (execRc cursorCreated : Bool)
    (execDigest execPsi : Option Nat) (openFails pcursorNull : Bool)
    (thd : Thd) : OpenCursorRes :=
  -- Only DML statements may have assigned a cursor.
  if stmt.has_dml_cmd = false then
    { ret := some true, thd := thd, executed := false,
      mediatorCreated := false, usageError := true,
      cursorHandedBack := false }
  else
    -- Three-way mediator setup; the first branch (cursor not usable or
    -- regular statement) is empty and leaves result_materialize null.
    let mediator : Bool := stmt.may_use_cursor && !stmt.is_regular
    let mediatorNew : Bool :=
      mediator && (!stmt.is_prepared || !stmt.lex_has_result)
    -- Save instrumentation state, null it out, execute, restore.
    let parent_digest := thd.m_digest
    let parent_locker := thd.m_statement_psi
    let thdExec : Thd := { m_digest := execDigest, m_statement_psi := execPsi }
    let thd2 : Thd := { thdExec with m_digest := parent_digest,
                                     m_statement_psi := parent_locker }
    let rc := execRc
    let cursorExists : Bool := mediator && cursorCreated
    if rc then
      if mediator = false then
        -- result_materialize->materialized_cursor dereferences nullptr.
        { ret := none, thd := thd2, executed := true,
          mediatorCreated := mediatorNew, usageError := false,
          cursorHandedBack := false }
      else
        -- abort_result_set / delete when a cursor had been built.
        { ret := some true, thd := thd2, executed := true,
          mediatorCreated := mediatorNew, usageError := false,
          cursorHandedBack := false }
    else if cursorExists then
      if openFails then
        { ret := some true, thd := thd2, executed := true,
          mediatorCreated := mediatorNew, usageError := false,
          cursorHandedBack := false }
      else
        { ret := some false, thd := thd2, executed := true,
          mediatorCreated := mediatorNew, usageError := false,
          cursorHandedBack := pcursorNull }
    else
      { ret := some false, thd := thd2, executed := true,
        mediatorCreated := mediatorNew, usageError := false,
        cursorHandedBack := false }

/-- State of a `Query_result_materialize` relevant to
`start_execution`: whether the temporary table storage is instantiated
(`table->is_created()`), and a count of `instantiate_tmp_table` calls
made so far (model bookkeeping for the exactly-once property). -/
structure Query_result_materialize where
  table_created : Bool
  instantiateCalls : Nat
  deriving DecidableEq, Repr

/-- `Query_result_materialize::start_execution`.  If the table is
already created (a UNION branch already ran this), returns success
immediately; otherwise instantiates the temporary table in the cursor
mem_root (`instFails` is the status of `instantiate_tmp_table`). -/
def Query_result_materialize.start_execution (instFails : Bool)
    (s : Query_result_materialize) : Bool × Query_result_materialize :=
  if s.table_created then
    (false, s)
  else if instFails then
    (true, { s with instantiateCalls := s.instantiateCalls + 1 })
  else
    (false, { table_created := true,
              instantiateCalls := s.instantiateCalls + 1 })

/-! ## Basic lemmas about traces and `close` -/

theorem sentRows_nil : sentRows [] = 0 := rfl

theorem sentRows_cons_sendData (p : Nat) (l : List Event) :
    sentRows (Event.sendData p :: l) = sentRows l + 1 := by
  simp [sentRows, List.countP_cons, isSendData]

theorem sentRows_cons_of_not (e : Event) (l : List Event)
    (h : isSendData e = false) : sentRows (e :: l) = sentRows l := by
  simp [sentRows, List.countP_cons, h]

theorem sentRows_append (l1 l2 : List Event) :
    sentRows (l1 ++ l2) = sentRows l1 + sentRows l2 := by
  simp [sentRows, List.countP_append]

theorem sentRows_sendEvs (pos n : Nat) : sentRows (sendEvs pos n) = n := by
  induction n generalizing pos with
  | zero => rfl
  | succ m ih => rw [sendEvs, sentRows_cons_sendData, ih]

theorem close_eq (c : Materialized_cursor) :
    c.close = { c with is_rnd_inited := false, has_storage_handler := false } := by
  unfold Materialized_cursor.close
  cases h : c.is_rnd_inited <;> simp [h]

/-! ## Characterization of the fetch loop -/

/-- While rows remain and the batch is not yet satisfied, the loop reads
and delivers one row per iteration. -/
theorem fetchLoopGo_rows (k e fuel pos fc : Nat) (h : pos + fuel ≤ k) :
    fetchLoopGo (scanTable k e) noFail fuel pos fc =
      .done 0 (pos + fuel) (fc + fuel) (sendEvs pos fuel) := by
  induction fuel generalizing pos fc with
  | zero => simp [fetchLoopGo, sendEvs]
  | succ n ih =>
    have hpos : pos < k := by omega
    have h2 : (pos + 1) + n ≤ k := by omega
    rw [show pos + (n + 1) = (pos + 1) + n by omega,
        show fc + (n + 1) = (fc + 1) + n by omega]
    have step : fetchLoopGo (scanTable k e) noFail (n + 1) pos fc =
        (fetchLoopGo (scanTable k e) noFail n (pos + 1) (fc + 1)).prepend
          (Event.sendData pos) := by
      simp [fetchLoopGo, scanTable, hpos, noFail]
    rw [step, ih (pos + 1) (fc + 1) h2]
    rfl

/-- When the scan reaches position `k` (where it reports status `e ≠ 0`)
before the batch is satisfied, the loop breaks with `res = e`, having
delivered the `k - pos` remaining rows. -/
theorem fetchLoopGo_break (k e fuel pos fc : Nat) (he : e ≠ 0)
    (hpk : pos ≤ k) (hf : k - pos < fuel) :
    fetchLoopGo (scanTable k e) noFail fuel pos fc =
      .done e k (fc + (k - pos)) (sendEvs pos (k - pos)) := by
  induction fuel generalizing pos fc with
  | zero => omega
  | succ n ih =>
    by_cases hpos : pos < k
    · have h2 : pos + 1 ≤ k := hpos
      have h3 : k - (pos + 1) < n := by omega
      rw [show k - pos = (k - (pos + 1)) + 1 by omega]
      rw [show fc + ((k - (pos + 1)) + 1) = (fc + 1) + (k - (pos + 1)) by omega]
      have step : fetchLoopGo (scanTable k e) noFail (n + 1) pos fc =
          (fetchLoopGo (scanTable k e) noFail n (pos + 1) (fc + 1)).prepend
            (Event.sendData pos) := by
        simp [fetchLoopGo, scanTable, hpos, noFail]
      rw [step, ih (pos + 1) (fc + 1) h2 h3]
      rfl
    · have hpe : pos = k := by omega
      subst hpe
      simp [fetchLoopGo, scanTable, he, sendEvs]

/-- When `send_data` fails for the row at position `s` (reached before
the batch is satisfied), the loop delivers the rows before `s`, then
returns failure from inside the loop with `fetch_count` not counting the
failed row. -/
theorem fetchLoopGo_sendFail (k e fuel pos fc s : Nat)
    (hps : pos ≤ s) (hsk : s < k) (hf : s - pos < fuel) :
    fetchLoopGo (scanTable k e) (failAt s) fuel pos fc =
      .sendFailed (s + 1) (fc + (s - pos))
        (sendEvs pos (s - pos) ++ [Event.sendDataFailed s]) := by
  induction fuel generalizing pos fc with
  | zero => omega
  | succ n ih =>
    by_cases hpos : pos = s
    · subst hpos
      have hl : pos < k := hsk
      simp [fetchLoopGo, scanTable, hl, failAt, sendEvs]
    · have h1 : pos < s := by omega
      have hl : pos < k := by omega
      have h2 : pos + 1 ≤ s := h1
      have h3 : s - (pos + 1) < n := by omega
      have hfa : failAt s pos = false := by
        simp only [failAt, beq_eq_false_iff_ne, ne_eq]
        omega
      rw [show s - pos = (s - (pos + 1)) + 1 by omega]
      rw [show fc + ((s - (pos + 1)) + 1) = (fc + 1) + (s - (pos + 1)) by omega]
      have step : fetchLoopGo (scanTable k e) (failAt s) (n + 1) pos fc =
          (fetchLoopGo (scanTable k e) (failAt s) n (pos + 1) (fc + 1)).prepend
            (Event.sendData pos) := by
        simp [fetchLoopGo, scanTable, hl, hfa]
      rw [step, ih (pos + 1) (fc + 1) h2 h3]
      rfl

/-- For arbitrary scan and sink oracles, the final `fetch_count` of the
loop equals the initial one plus the number of rows successfully
delivered, and exceeds the initial one by at most `fuel`. -/
theorem fetchLoopGo_fcOut (next : Nat → Nat) (sendFail : Nat → Bool)
    (fuel pos fc : Nat) :
    (fetchLoopGo next sendFail fuel pos fc).fcOut =
      fc + sentRows (fetchLoopGo next sendFail fuel pos fc).evs ∧
    (fetchLoopGo next sendFail fuel pos fc).fcOut ≤ fc + fuel := by
  induction fuel generalizing pos fc with
  | zero => simp [fetchLoopGo, LoopOut.fcOut, LoopOut.evs, sentRows]
  | succ n ih =>
    by_cases h0 : next pos = 0
    · by_cases hsf : sendFail pos = true
      · have step : fetchLoopGo next sendFail (n + 1) pos fc =
            .sendFailed (pos + 1) fc [Event.sendDataFailed pos] := by
          simp [fetchLoopGo, h0, hsf]
        rw [step]
        simp [LoopOut.fcOut, LoopOut.evs, sentRows, List.countP_cons,
              List.countP_nil, isSendData]
      · have hsf2 : sendFail pos = false := by
          cases h : sendFail pos
          · rfl
          · exact absurd h hsf
        have step : fetchLoopGo next sendFail (n + 1) pos fc =
            (fetchLoopGo next sendFail n (pos + 1) (fc + 1)).prepend
              (Event.sendData pos) := by
          simp [fetchLoopGo, h0, hsf2]
        rw [step]
        obtain ⟨ih1, ih2⟩ := ih (pos + 1) (fc + 1)
        cases hres : fetchLoopGo next sendFail n (pos + 1) (fc + 1) with
        | done r p f evs =>
          rw [hres] at ih1 ih2
          simp only [LoopOut.fcOut, LoopOut.evs] at ih1 ih2
          simp only [LoopOut.prepend, LoopOut.fcOut, LoopOut.evs,
                     sentRows_cons_sendData]
          omega
        | sendFailed p f evs =>
          rw [hres] at ih1 ih2
          simp only [LoopOut.fcOut, LoopOut.evs] at ih1 ih2
          simp only [LoopOut.prepend, LoopOut.fcOut, LoopOut.evs,
                     sentRows_cons_sendData]
          omega
    · have step : fetchLoopGo next sendFail (n + 1) pos fc =
          .done (next pos) pos fc [] := by
        simp [fetchLoopGo, h0]
      rw [step]
      simp only [LoopOut.fcOut, LoopOut.evs, sentRows, List.countP_nil]
      omega

/-! ## Characterization of `Materialized_cursor::fetch`

The steady-state hypotheses `c.pos = c.fetch_count` and
`c.fetch_limit = c.fetch_count` describe a cursor between fetch calls:
`open()` establishes them (all three are 0) and a completed batch
re-establishes them. -/

/-- Batch satisfied: at least `n` more rows are available, so the loop
delivers exactly `n` rows, the cursor-exists bit is set, eof is sent and
the cursor stays open. -/
theorem fetch_batch (k e n : Nat) (c : Materialized_cursor) (st : ServerStatus)
    (hpos : c.pos = c.fetch_count) (hfl : c.fetch_limit = c.fetch_count)
    (hov : c.fetch_count + n < ULONG_MOD) (hk : c.fetch_count + n ≤ k) :
    Materialized_cursor.fetch (scanTable k e) noFail n c st =
      { rc := false,
        cursor := { c with fetch_limit := c.fetch_count + n,
                           fetch_count := c.fetch_count + n,
                           pos := c.fetch_count + n },
        status := { st with cursorExists := true },
        events := Event.beginDataset ::
          (sendEvs c.fetch_count n ++ [Event.sendEof]) } := by
  have hmod : (c.fetch_limit + n) % ULONG_MOD = c.fetch_count + n := by
    rw [hfl]
    exact Nat.mod_eq_of_lt hov
  have hfuel : c.fetch_count + n - c.fetch_count = n := by omega
  simp only [Materialized_cursor.fetch, fetchLoop, hmod, hfuel, hpos]
  rw [fetchLoopGo_rows k e n c.fetch_count c.fetch_count hk]
  simp

/-- Natural exhaustion: the scan of a table with `k` rows reports
end-of-data before the batch of `n` is satisfied; the remaining
`k - fetch_count` rows are delivered, last-row-sent is set, eof is sent
and the cursor is closed. -/
theorem fetch_eof (k n : Nat) (c : Materialized_cursor) (st : ServerStatus)
    (hpos : c.pos = c.fetch_count) (hfl : c.fetch_limit = c.fetch_count)
    (hov : c.fetch_count + n < ULONG_MOD)
    (hk1 : k < c.fetch_count + n) (hk2 : c.fetch_count ≤ k) :
    Materialized_cursor.fetch (tableOf k) noFail n c st =
      { rc := false,
        cursor := { c with fetch_limit := c.fetch_count + n,
                           fetch_count := k, pos := k,
                           is_rnd_inited := false,
                           has_storage_handler := false },
        status := { st with lastRowSent := true },
        events := Event.beginDataset ::
          (sendEvs c.fetch_count (k - c.fetch_count) ++ [Event.sendEof]) } := by
  have hmod : (c.fetch_limit + n) % ULONG_MOD = c.fetch_count + n := by
    rw [hfl]
    exact Nat.mod_eq_of_lt hov
  have hfuel : c.fetch_count + n - c.fetch_count = n := by omega
  have he : HA_ERR_END_OF_FILE ≠ 0 := by
    simp [HA_ERR_END_OF_FILE]
  have hf : k - c.fetch_count < n := by omega
  have hkfc : c.fetch_count + (k - c.fetch_count) = k := by omega
  simp only [Materialized_cursor.fetch, fetchLoop, tableOf, hmod, hfuel, hpos]
  rw [fetchLoopGo_break k HA_ERR_END_OF_FILE n c.fetch_count c.fetch_count
      he hk2 hf, hkfc]
  simp [HA_ERR_END_OF_FILE, close_eq]

/-- Scan failure: the scan reports a handler status `e` that is neither
0 nor end-of-data at position `k`, before the batch is satisfied; the
rows before `k` are delivered, the handler error is printed, the cursor
is closed and failure is returned. -/
theorem fetch_scan_error (k e n : Nat) (c : Materialized_cursor)
    (st : ServerStatus) (he0 : e ≠ 0) (heof : e ≠ HA_ERR_END_OF_FILE)
    (hpos : c.pos = c.fetch_count) (hfl : c.fetch_limit = c.fetch_count)
    (hov : c.fetch_count + n < ULONG_MOD)
    (hk1 : k < c.fetch_count + n) (hk2 : c.fetch_count ≤ k) :
    Materialized_cursor.fetch (scanTable k e) noFail n c st =
      { rc := true,
        cursor := { c with fetch_limit := c.fetch_count + n,
                           fetch_count := k, pos := k,
                           is_rnd_inited := false,
                           has_storage_handler := false },
        status := st,
        events := Event.beginDataset ::
          (sendEvs c.fetch_count (k - c.fetch_count) ++
            [Event.printError e]) } := by
  have hmod : (c.fetch_limit + n) % ULONG_MOD = c.fetch_count + n := by
    rw [hfl]
    exact Nat.mod_eq_of_lt hov
  have hfuel : c.fetch_count + n - c.fetch_count = n := by omega
  have hf : k - c.fetch_count < n := by omega
  have hkfc : c.fetch_count + (k - c.fetch_count) = k := by omega
  simp only [Materialized_cursor.fetch, fetchLoop, hmod, hfuel, hpos]
  rw [fetchLoopGo_break k e n c.fetch_count c.fetch_count he0 hk2 hf, hkfc]
  simp [he0, heof, close_eq]

/-- Row-delivery failure: `send_data` fails for the row at position `s`
(reached within the batch, while rows remain); fetch returns true
immediately, `fetch_limit` keeps its full increment, the scan state and
the storage handler are untouched and no eof or error is reported. -/
theorem fetch_send_fail (k e s n : Nat) (c : Materialized_cursor)
    (st : ServerStatus)
    (hpos : c.pos = c.fetch_count) (hfl : c.fetch_limit = c.fetch_count)
    (hov : c.fetch_count + n < ULONG_MOD)
    (hs1 : c.fetch_count ≤ s) (hs2 : s < k) (hs3 : s < c.fetch_count + n) :
    Materialized_cursor.fetch (scanTable k e) (failAt s) n c st =
      { rc := true,
        cursor := { c with fetch_limit := c.fetch_count + n,
                           fetch_count := s, pos := s + 1 },
        status := st,
        events := Event.beginDataset ::
          (sendEvs c.fetch_count (s - c.fetch_count) ++
            [Event.sendDataFailed s]) } := by
  have hmod : (c.fetch_limit + n) % ULONG_MOD = c.fetch_count + n := by
    rw [hfl]
    exact Nat.mod_eq_of_lt hov
  have hfuel : c.fetch_count + n - c.fetch_count = n := by omega
  have hf : s - c.fetch_count < n := by omega
  have hsfc : c.fetch_count + (s - c.fetch_count) = s := by omega
  simp only [Materialized_cursor.fetch, fetchLoop, hmod, hfuel, hpos]
  rw [fetchLoopGo_sendFail k e n c.fetch_count c.fetch_count s hs1 hs2 hf,
      hsfc]

/-- Counter behaviour of `fetch` for arbitrary scan and sink oracles:
provided the new `fetch_limit` does not overflow the ulong counter,
`fetch_limit` grows by exactly `num_rows`, `fetch_count` grows by
exactly the number of successfully delivered rows, and the invariant
`fetch_count ≤ fetch_limit` is preserved. -/
theorem fetch_counters (next : Nat → Nat) (sendFail : Nat → Bool) (n : Nat)
    (c : Materialized_cursor) (st : ServerStatus)
    (hinv : c.fetch_count ≤ c.fetch_limit)
    (hov : c.fetch_limit + n < ULONG_MOD) :
    (Materialized_cursor.fetch next sendFail n c st).cursor.fetch_limit
        = c.fetch_limit + n ∧
    (Materialized_cursor.fetch next sendFail n c st).cursor.fetch_count
        = c.fetch_count +
            sentRows (Materialized_cursor.fetch next sendFail n c st).events ∧
    c.fetch_count
        ≤ (Materialized_cursor.fetch next sendFail n c st).cursor.fetch_count ∧
    (Materialized_cursor.fetch next sendFail n c st).cursor.fetch_count
        ≤ (Materialized_cursor.fetch next sendFail n c st).cursor.fetch_limit := by
  have hmod : (c.fetch_limit + n) % ULONG_MOD = c.fetch_limit + n :=
    Nat.mod_eq_of_lt hov
  obtain ⟨h1, h2⟩ := fetchLoopGo_fcOut next sendFail
      (c.fetch_limit + n - c.fetch_count) c.pos c.fetch_count
  simp only [Materialized_cursor.fetch, fetchLoop, hmod]
  cases hres : fetchLoopGo next sendFail (c.fetch_limit + n - c.fetch_count)
      c.pos c.fetch_count with
  | done r p f evs =>
    rw [hres] at h1 h2
    simp only [LoopOut.fcOut, LoopOut.evs] at h1 h2
    have hbd : sentRows (Event.beginDataset :: (evs ++ [Event.sendEof]))
        = sentRows evs := by
      rw [sentRows_cons_of_not Event.beginDataset _ rfl, sentRows_append]
      rfl
    have hpe : sentRows (Event.beginDataset :: (evs ++ [Event.printError r]))
        = sentRows evs := by
      rw [sentRows_cons_of_not Event.beginDataset _ rfl, sentRows_append]
      rfl
    dsimp only
    split_ifs <;>
      simp only [close_eq, hbd, hpe] <;>
      exact ⟨by trivial, by omega, by omega, by omega⟩
  | sendFailed p f evs =>
    rw [hres] at h1 h2
    simp only [LoopOut.fcOut, LoopOut.evs] at h1 h2
    have hbd : sentRows (Event.beginDataset :: evs) = sentRows evs :=
      sentRows_cons_of_not Event.beginDataset _ rfl
    dsimp only
    rw [hbd]
    exact ⟨rfl, by omega, by omega, by omega⟩

/-- Positions of the rows delivered by a block of `send_data` events. -/
theorem sendData_mem_sendEvs (nn pos p : Nat) :
    Event.sendData p ∈ sendEvs pos nn ↔ pos ≤ p ∧ p < pos + nn := by
  induction nn generalizing pos with
  | zero =>
    simp only [sendEvs, List.not_mem_nil, false_iff]
    omega
  | succ m ih =>
    simp only [sendEvs, List.mem_cons, ih (pos + 1), Event.sendData.injEq]
    omega

/-- Every event in a `sendEvs` block is a successful row delivery. -/
theorem mem_sendEvs_isSendData (nn pos : Nat) :
    ∀ ev ∈ sendEvs pos nn, isSendData ev = true := by
  induction nn generalizing pos with
  | zero =>
    intro ev hev
    simp [sendEvs] at hev
  | succ m ih =>
    intro ev hev
    rcases List.mem_cons.1 hev with h | h
    · subst h
      rfl
    · exact ih (pos + 1) ev h

/-! ## Claims -/

/-- Claim C10: `Materialized_cursor::open` resets `fetch_limit` and
`fetch_count` to zero on every call, including calls that return
failure (prepare or scan initialization failed): the reset is performed
unconditionally after the success/abort signalling. -/
theorem C10_open_always_resets_counters (prepFails rndInitFails : Bool)
    (c : Materialized_cursor) (st : ServerStatus) :
    (Materialized_cursor.open_cursor prepFails rndInitFails c st).cursor.fetch_limit
        = 0 ∧
    (Materialized_cursor.open_cursor prepFails rndInitFails c st).cursor.fetch_count
        = 0 := by
  cases prepFails <;> cases rndInitFails <;>
    simp [Materialized_cursor.open_cursor]

/-- Claim C7 as stated is false: when `result->prepare` fails, the
short-circuit `rc = !rc && ha_rnd_init(true)` makes `open()` report
success on a bound, not-already-scanning table without ever calling
`ha_rnd_init` (even an `ha_rnd_init` oracle that would fail is never
consulted), so the sequential scan is not positioned before the first
row (here it stays at position 7). -/
theorem C7_counterexample :
    (⟨4, 3, false, 7, true⟩ : Materialized_cursor).has_storage_handler
        = true ∧
    (⟨4, 3, false, 7, true⟩ : Materialized_cursor).is_rnd_inited = false ∧
    (Materialized_cursor.open_cursor true true ⟨4, 3, false, 7, true⟩
        ⟨false, false⟩).rc = false ∧
    (Materialized_cursor.open_cursor true true ⟨4, 3, false, 7, true⟩
        ⟨false, false⟩).cursor.pos ≠ 0 := by
  decide

/-- Claim C7 amended: for every call to `open()` on a bound,
not-already-scanning table in which `result->prepare` succeeds and that
returns success (with prepare succeeded, success is exactly
`ha_rnd_init` succeeding), afterwards `fetch_count = fetch_limit = 0`,
the sequential scan is positioned before the first row, `is_open()` is
true, the scan is active (`is_rnd_inited`), the session cursor-exists
status bit is set and end-of-metadata (eof) has been signalled to the
Result Sink.  (When `result->prepare` fails, `open()` still returns
success with the counters reset, cursor-exists set and eof sent, but
`ha_rnd_init` is never called and the scan is left unpositioned.) -/
theorem C7_amended (rndInitFails : Bool) (c : Materialized_cursor)
    (st : ServerStatus) (hbound : c.has_storage_handler = true)
    (_hscan : c.is_rnd_inited = false)
    (hsucc : (Materialized_cursor.open_cursor false rndInitFails c st).rc
      = false) :
    (Materialized_cursor.open_cursor false rndInitFails c st).cursor.fetch_count
        = 0 ∧
    (Materialized_cursor.open_cursor false rndInitFails c st).cursor.fetch_limit
        = 0 ∧
    (Materialized_cursor.open_cursor false rndInitFails c st).cursor.pos = 0 ∧
    (Materialized_cursor.open_cursor false rndInitFails c st).cursor.is_open
        = true ∧
    (Materialized_cursor.open_cursor false rndInitFails c
        st).cursor.is_rnd_inited = true ∧
    (Materialized_cursor.open_cursor false rndInitFails c st).status.cursorExists
        = true ∧
    Event.sendEof
        ∈ (Materialized_cursor.open_cursor false rndInitFails c st).events := by
  cases rndInitFails with
  | true =>
    simp [Materialized_cursor.open_cursor] at hsucc
  | false =>
    simp [Materialized_cursor.open_cursor, Materialized_cursor.is_open, hbound]

/-- Witness for C7 amended: a concrete bound, not-scanning cursor with
prepare and `ha_rnd_init` both succeeding. -/
theorem C7_witness :
    ((⟨5, 3, false, 7, true⟩ : Materialized_cursor).has_storage_handler
        = true ∧
     (⟨5, 3, false, 7, true⟩ : Materialized_cursor).is_rnd_inited = false ∧
     (Materialized_cursor.open_cursor false false ⟨5, 3, false, 7, true⟩
        ⟨false, false⟩).rc = false) ∧
    ((Materialized_cursor.open_cursor false false ⟨5, 3, false, 7, true⟩
        ⟨false, false⟩).cursor.fetch_count = 0 ∧
     (Materialized_cursor.open_cursor false false ⟨5, 3, false, 7, true⟩
        ⟨false, false⟩).cursor.fetch_limit = 0 ∧
     (Materialized_cursor.open_cursor false false ⟨5, 3, false, 7, true⟩
        ⟨false, false⟩).cursor.pos = 0 ∧
     (Materialized_cursor.open_cursor false false ⟨5, 3, false, 7, true⟩
        ⟨false, false⟩).cursor.is_open = true ∧
     (Materialized_cursor.open_cursor false false ⟨5, 3, false, 7, true⟩
        ⟨false, false⟩).cursor.is_rnd_inited = true ∧
     (Materialized_cursor.open_cursor false false ⟨5, 3, false, 7, true⟩
        ⟨false, false⟩).status.cursorExists = true ∧
     Event.sendEof ∈ (Materialized_cursor.open_cursor false false
        ⟨5, 3, false, 7, true⟩ ⟨false, false⟩).events) :=
  ⟨⟨rfl, rfl, rfl⟩,
   C7_amended false ⟨5, 3, false, 7, true⟩ ⟨false, false⟩ rfl rfl rfl⟩

/-- Claim C9: `mysql_open_cursor` restores `thd->m_digest` and
`thd->m_statement_psi` to their values from before statement execution
on every outcome, both when `mysql_execute_command` succeeds and when
it fails (the restore precedes all the post-execution dispatch). -/
theorem C9_instrumentation_restored (stmt : Stmt) (execRc cursorCreated : Bool)
    (execDigest execPsi : Option Nat) (openFails pcursorNull : Bool)
    (thd : Thd) :
    (mysql_open_cursor stmt execRc cursorCreated execDigest execPsi
        openFails pcursorNull thd).thd = thd := by
  obtain ⟨dg, ps⟩ := thd
  obtain ⟨d, u, g, p, l⟩ := stmt
  cases d <;> cases u <;> cases g <;>
    cases execRc <;> cases cursorCreated <;> cases openFails <;>
    simp [mysql_open_cursor]

/-- Claim C8: `Query_result_materialize::start_execution` is idempotent
per statement execution: once the temporary table is created, any
further call returns success and leaves the state untouched (in
particular no further `instantiate_tmp_table` call is made), so any
sequence of further invocations leaves the state fixed. -/
theorem C8_start_execution_idempotent (s : Query_result_materialize)
    (h : s.table_created = true) :
    (∀ instFails : Bool,
        Query_result_materialize.start_execution instFails s = (false, s)) ∧
    (∀ bs : List Bool,
        bs.foldl (fun t b => (Query_result_materialize.start_execution b t).2) s
          = s) := by
  have h1 : ∀ instFails : Bool,
      Query_result_materialize.start_execution instFails s = (false, s) := by
    intro instFails
    simp [Query_result_materialize.start_execution, h]
  refine ⟨h1, ?_⟩
  intro bs
  induction bs with
  | nil => rfl
  | cons b bs ih =>
    simp only [List.foldl_cons, h1 b]
    exact ih

/-- Witness for C8 at a concrete already-created state. -/
theorem C8_witness :
    (⟨true, 1⟩ : Query_result_materialize).table_created = true ∧
    Query_result_materialize.start_execution true ⟨true, 1⟩ = (false, ⟨true, 1⟩) ∧
    [true, false, true].foldl
        (fun t b => (Query_result_materialize.start_execution b t).2) ⟨true, 1⟩
      = ⟨true, 1⟩ :=
  ⟨rfl, (C8_start_execution_idempotent ⟨true, 1⟩ rfl).1 true,
   (C8_start_execution_idempotent ⟨true, 1⟩ rfl).2 [true, false, true]⟩

/-- Claim C2 as stated is false: for a DML statement that is ineligible
for cursor semantics (`may_use_cursor()` false), `mysql_open_cursor`
does not signal an invalid-usage error and does not return failure
immediately; it executes the statement (here successfully, returning
false). -/
theorem C2_counterexample :
    (mysql_open_cursor ⟨true, false, false, true, false⟩ false false
        none none false true ⟨none, none⟩).executed = true ∧
    (mysql_open_cursor ⟨true, false, false, true, false⟩ false false
        none none false true ⟨none, none⟩).usageError = false ∧
    (mysql_open_cursor ⟨true, false, false, true, false⟩ false false
        none none false true ⟨none, none⟩).ret = some false := by
  decide

/-- Claim C2 amended: `mysql_open_cursor` signals the invalid-usage
error (`ER_WRONG_ARGUMENTS`) and returns failure immediately with no
side effects only when the statement is not a DML statement; a DML
statement that is ineligible for cursor semantics (may not use a
cursor, or is a regular non-prepared statement) is not rejected:
no mediator is created, no usage error is signalled, and the statement
is executed anyway (with a null result sink installed). -/
theorem C2_amended (stmt : Stmt) (execRc cursorCreated : Bool)
    (execDigest execPsi : Option Nat) (openFails pcursorNull : Bool)
    (thd : Thd) :
    (stmt.has_dml_cmd = false →
      (mysql_open_cursor stmt execRc cursorCreated execDigest execPsi
          openFails pcursorNull thd).usageError = true ∧
      (mysql_open_cursor stmt execRc cursorCreated execDigest execPsi
          openFails pcursorNull thd).ret = some true ∧
      (mysql_open_cursor stmt execRc cursorCreated execDigest execPsi
          openFails pcursorNull thd).executed = false ∧
      (mysql_open_cursor stmt execRc cursorCreated execDigest execPsi
          openFails pcursorNull thd).mediatorCreated = false) ∧
    (stmt.has_dml_cmd = true →
      (stmt.may_use_cursor = false ∨ stmt.is_regular = true) →
      (mysql_open_cursor stmt execRc cursorCreated execDigest execPsi
          openFails pcursorNull thd).usageError = false ∧
      (mysql_open_cursor stmt execRc cursorCreated execDigest execPsi
          openFails pcursorNull thd).mediatorCreated = false ∧
      (mysql_open_cursor stmt execRc cursorCreated execDigest execPsi
          openFails pcursorNull thd).executed = true) := by
  obtain ⟨d, u, g, p, l⟩ := stmt
  constructor
  · intro hd
    subst hd
    simp [mysql_open_cursor]
  · intro hd hin
    subst hd
    have hmed : (u && !g) = false := by
      rcases hin with h | h <;> simp_all
    cases execRc <;> cases cursorCreated <;> cases openFails <;>
      simp [mysql_open_cursor, hmed]

/-- Witness for C2 amended, covering both cases at concrete inputs:
a non-DML statement and an ineligible DML statement. -/
theorem C2_witness :
    ((mysql_open_cursor ⟨false, true, false, true, true⟩ false false
        none none false true ⟨none, none⟩).usageError = true ∧
     (mysql_open_cursor ⟨false, true, false, true, true⟩ false false
        none none false true ⟨none, none⟩).ret = some true ∧
     (mysql_open_cursor ⟨false, true, false, true, true⟩ false false
        none none false true ⟨none, none⟩).executed = false ∧
     (mysql_open_cursor ⟨false, true, false, true, true⟩ false false
        none none false true ⟨none, none⟩).mediatorCreated = false) ∧
    ((mysql_open_cursor ⟨true, true, true, false, false⟩ true false
        none none false true ⟨none, none⟩).usageError = false ∧
     (mysql_open_cursor ⟨true, true, true, false, false⟩ true false
        none none false true ⟨none, none⟩).mediatorCreated = false ∧
     (mysql_open_cursor ⟨true, true, true, false, false⟩ true false
        none none false true ⟨none, none⟩).executed = true) :=
  ⟨(C2_amended ⟨false, true, false, true, true⟩ false false
      none none false true ⟨none, none⟩).1 rfl,
   (C2_amended ⟨true, true, true, false, false⟩ true false
      none none false true ⟨none, none⟩).2 rfl (Or.inr rfl)⟩

/-- Claim C1 as stated is false: on a table with `R = 1` row, the call
`fetch(1)` makes the cumulative request equal `R` exactly, yet it
reports cursor-exists (not last-row-sent) and leaves the cursor open. -/
theorem C1_counterexample :
    (Materialized_cursor.fetch (tableOf 1) noFail 1 ⟨0, 0, true, 0, true⟩
        ⟨false, false⟩).status.lastRowSent = false ∧
    (Materialized_cursor.fetch (tableOf 1) noFail 1 ⟨0, 0, true, 0, true⟩
        ⟨false, false⟩).status.cursorExists = true ∧
    (Materialized_cursor.fetch (tableOf 1) noFail 1 ⟨0, 0, true, 0, true⟩
        ⟨false, false⟩).cursor.is_open = true := by
  decide

/-- Claim C1 amended: when the cumulative requested count reaches `R`
exactly, that call delivers the remaining rows but reports cursor-exists
and leaves the cursor open; it is the subsequent fetch that delivers
zero rows, reports last-row-sent and closes the cursor. -/
theorem C1_amended (R n m : Nat) (c : Materialized_cursor)
    (st st2 : ServerStatus)
    (hpos : c.pos = c.fetch_count) (hfl : c.fetch_limit = c.fetch_count)
    (hsum : c.fetch_count + n = R) (hov : R + m < ULONG_MOD) (hm : 1 ≤ m) :
    (Materialized_cursor.fetch (tableOf R) noFail n c st).rc = false ∧
    (Materialized_cursor.fetch (tableOf R) noFail n c st).status.cursorExists
        = true ∧
    (Materialized_cursor.fetch (tableOf R) noFail n c st).status.lastRowSent
        = st.lastRowSent ∧
    (Materialized_cursor.fetch (tableOf R) noFail n c st).cursor.is_open
        = c.is_open ∧
    sentRows (Materialized_cursor.fetch (tableOf R) noFail n c st).events = n ∧
    (Materialized_cursor.fetch (tableOf R) noFail m
        (Materialized_cursor.fetch (tableOf R) noFail n c st).cursor st2).rc
        = false ∧
    (Materialized_cursor.fetch (tableOf R) noFail m
        (Materialized_cursor.fetch (tableOf R) noFail n c st).cursor
        st2).status.lastRowSent = true ∧
    (Materialized_cursor.fetch (tableOf R) noFail m
        (Materialized_cursor.fetch (tableOf R) noFail n c st).cursor
        st2).cursor.is_open = false ∧
    sentRows (Materialized_cursor.fetch (tableOf R) noFail m
        (Materialized_cursor.fetch (tableOf R) noFail n c st).cursor
        st2).events = 0 := by
  have hov1 : c.fetch_count + n < ULONG_MOD := by omega
  have hk : c.fetch_count + n ≤ R := by omega
  have h1 := fetch_batch R HA_ERR_END_OF_FILE n c st hpos hfl hov1 hk
  rw [hsum] at h1
  have h1t : Materialized_cursor.fetch (tableOf R) noFail n c st =
      { rc := false,
        cursor := { c with fetch_limit := R, fetch_count := R, pos := R },
        status := { st with cursorExists := true },
        events := Event.beginDataset ::
          (sendEvs c.fetch_count n ++ [Event.sendEof]) } := h1
  rw [h1t]
  have h2 := fetch_eof R m
      { c with fetch_limit := R, fetch_count := R, pos := R } st2
      rfl rfl (by simpa using hov) (by simp; omega) (Nat.le_refl R)
  rw [h2]
  refine ⟨rfl, rfl, rfl, rfl, ?_, rfl, rfl, rfl, ?_⟩
  · rw [sentRows_cons_of_not Event.beginDataset _ rfl, sentRows_append,
        sentRows_sendEvs]
    rfl
  · rw [sentRows_cons_of_not Event.beginDataset _ rfl, sentRows_append]
    rw [show R - R = 0 from Nat.sub_self R]
    rfl

/-- Witness for C1 amended: `R = 1`, `fetch(1)` then `fetch(1)`. -/
theorem C1_witness :
    ((⟨0, 0, true, 0, true⟩ : Materialized_cursor).pos = 0 ∧
     0 + 1 = 1 ∧ 1 + 1 < ULONG_MOD) ∧
    ((Materialized_cursor.fetch (tableOf 1) noFail 1 ⟨0, 0, true, 0, true⟩
        ⟨false, false⟩).rc = false ∧
     (Materialized_cursor.fetch (tableOf 1) noFail 1 ⟨0, 0, true, 0, true⟩
        ⟨false, false⟩).status.cursorExists = true ∧
     (Materialized_cursor.fetch (tableOf 1) noFail 1 ⟨0, 0, true, 0, true⟩
        ⟨false, false⟩).status.lastRowSent
        = (⟨false, false⟩ : ServerStatus).lastRowSent ∧
     (Materialized_cursor.fetch (tableOf 1) noFail 1 ⟨0, 0, true, 0, true⟩
        ⟨false, false⟩).cursor.is_open
        = (⟨0, 0, true, 0, true⟩ : Materialized_cursor).is_open ∧
     sentRows (Materialized_cursor.fetch (tableOf 1) noFail 1
        ⟨0, 0, true, 0, true⟩ ⟨false, false⟩).events = 1 ∧
     (Materialized_cursor.fetch (tableOf 1) noFail 1
        (Materialized_cursor.fetch (tableOf 1) noFail 1 ⟨0, 0, true, 0, true⟩
          ⟨false, false⟩).cursor ⟨false, false⟩).rc = false ∧
     (Materialized_cursor.fetch (tableOf 1) noFail 1
        (Materialized_cursor.fetch (tableOf 1) noFail 1 ⟨0, 0, true, 0, true⟩
          ⟨false, false⟩).cursor ⟨false, false⟩).status.lastRowSent = true ∧
     (Materialized_cursor.fetch (tableOf 1) noFail 1
        (Materialized_cursor.fetch (tableOf 1) noFail 1 ⟨0, 0, true, 0, true⟩
          ⟨false, false⟩).cursor ⟨false, false⟩).cursor.is_open = false ∧
     sentRows (Materialized_cursor.fetch (tableOf 1) noFail 1
        (Materialized_cursor.fetch (tableOf 1) noFail 1 ⟨0, 0, true, 0, true⟩
          ⟨false, false⟩).cursor ⟨false, false⟩).events = 0) :=
  ⟨⟨rfl, rfl, by decide⟩,
   C1_amended 1 1 1 ⟨0, 0, true, 0, true⟩ ⟨false, false⟩ ⟨false, false⟩
     rfl rfl rfl (by decide) (by decide)⟩

/-- Claim C3: a `fetch(n)` call during which the scan reports
end-of-data before `n` further rows are delivered returns success, sets
the last-row-sent status, sends eof to the Result Sink, and closes the
cursor in the same call (scan ended, `is_open()` false); the rows still
available (`R - fetch_count`) are delivered first. -/
theorem C3_natural_exhaustion (R n : Nat) (c : Materialized_cursor)
    (st : ServerStatus)
    (hpos : c.pos = c.fetch_count) (hfl : c.fetch_limit = c.fetch_count)
    (hov : c.fetch_count + n < ULONG_MOD)
    (hk1 : R < c.fetch_count + n) (hk2 : c.fetch_count ≤ R) :
    (Materialized_cursor.fetch (tableOf R) noFail n c st).rc = false ∧
    (Materialized_cursor.fetch (tableOf R) noFail n c st).status.lastRowSent
        = true ∧
    Event.sendEof ∈ (Materialized_cursor.fetch (tableOf R) noFail n c st).events ∧
    (Materialized_cursor.fetch (tableOf R) noFail n c st).cursor.is_open
        = false ∧
    (Materialized_cursor.fetch (tableOf R) noFail n c st).cursor.is_rnd_inited
        = false ∧
    sentRows (Materialized_cursor.fetch (tableOf R) noFail n c st).events
        = R - c.fetch_count := by
  rw [fetch_eof R n c st hpos hfl hov hk1 hk2]
  refine ⟨rfl, rfl, ?_, rfl, rfl, ?_⟩
  · simp
  · rw [sentRows_cons_of_not Event.beginDataset _ rfl, sentRows_append,
        sentRows_sendEvs]
    rfl

/-- Witness for C3: the spec example, a 3-row table fetched with
`fetch(2)` then `fetch(2)`: the first call delivers 2 rows with
cursor-exists status (checked by evaluation), the second (run here via
the theorem from the resulting state `fetch_limit = fetch_count = pos = 2`)
delivers 1 row, reports last-row-sent and auto-closes. -/
theorem C3_witness :
    ((Materialized_cursor.fetch (tableOf 3) noFail 2 ⟨0, 0, true, 0, true⟩
        ⟨false, false⟩).status.cursorExists = true ∧
     (Materialized_cursor.fetch (tableOf 3) noFail 2 ⟨0, 0, true, 0, true⟩
        ⟨false, false⟩).cursor = ⟨2, 2, true, 2, true⟩ ∧
     sentRows (Materialized_cursor.fetch (tableOf 3) noFail 2
        ⟨0, 0, true, 0, true⟩ ⟨false, false⟩).events = 2) ∧
    ((Materialized_cursor.fetch (tableOf 3) noFail 2 ⟨2, 2, true, 2, true⟩
        ⟨false, false⟩).rc = false ∧
     (Materialized_cursor.fetch (tableOf 3) noFail 2 ⟨2, 2, true, 2, true⟩
        ⟨false, false⟩).status.lastRowSent = true ∧
     Event.sendEof ∈ (Materialized_cursor.fetch (tableOf 3) noFail 2
        ⟨2, 2, true, 2, true⟩ ⟨false, false⟩).events ∧
     (Materialized_cursor.fetch (tableOf 3) noFail 2 ⟨2, 2, true, 2, true⟩
        ⟨false, false⟩).cursor.is_open = false ∧
     (Materialized_cursor.fetch (tableOf 3) noFail 2 ⟨2, 2, true, 2, true⟩
        ⟨false, false⟩).cursor.is_rnd_inited = false ∧
     sentRows (Materialized_cursor.fetch (tableOf 3) noFail 2
        ⟨2, 2, true, 2, true⟩ ⟨false, false⟩).events = 3 - 2) :=
  ⟨by decide,
   C3_natural_exhaustion 3 2 ⟨2, 2, true, 2, true⟩ ⟨false, false⟩
     rfl rfl (by decide) (by decide) (by decide)⟩

/-- Claim C4: a `fetch(n)` call during which the scan handle reports an
error `e` other than end-of-data surfaces the handler error
(`print_error`), closes the cursor, and returns failure; the failing
row is never forwarded to the Result Sink (every delivered row lies
strictly before the failing position `k`). -/
theorem C4_scan_failure (k e n : Nat) (c : Materialized_cursor)
    (st : ServerStatus) (he0 : e ≠ 0) (heof : e ≠ HA_ERR_END_OF_FILE)
    (hpos : c.pos = c.fetch_count) (hfl : c.fetch_limit = c.fetch_count)
    (hov : c.fetch_count + n < ULONG_MOD)
    (hk1 : k < c.fetch_count + n) (hk2 : c.fetch_count ≤ k) :
    (Materialized_cursor.fetch (scanTable k e) noFail n c st).rc = true ∧
    Event.printError e
        ∈ (Materialized_cursor.fetch (scanTable k e) noFail n c st).events ∧
    (Materialized_cursor.fetch (scanTable k e) noFail n c st).cursor.is_open
        = false ∧
    (Materialized_cursor.fetch (scanTable k e) noFail n c st).cursor.is_rnd_inited
        = false ∧
    sentRows (Materialized_cursor.fetch (scanTable k e) noFail n c st).events
        = k - c.fetch_count ∧
    (∀ p : Nat, Event.sendData p
        ∈ (Materialized_cursor.fetch (scanTable k e) noFail n c st).events →
        p < k) := by
  rw [fetch_scan_error k e n c st he0 heof hpos hfl hov hk1 hk2]
  refine ⟨rfl, ?_, rfl, rfl, ?_, ?_⟩
  · simp
  · rw [sentRows_cons_of_not Event.beginDataset _ rfl, sentRows_append,
        sentRows_sendEvs]
    rfl
  · intro p hp
    simp only [List.mem_cons, List.mem_append, List.mem_singleton,
               sendData_mem_sendEvs] at hp
    rcases hp with h | h | h
    · exact absurd h (by simp)
    · omega
    · exact absurd h (by simp)

/-- Witness for C4: the spec example, a handler error (code 126) on the
second row during a `fetch(3)` from a fresh cursor: failure is
returned, exactly the first row was forwarded, and the cursor is
closed. -/
theorem C4_witness :
    ((126 : Nat) ≠ 0 ∧ (126 : Nat) ≠ HA_ERR_END_OF_FILE ∧
     (0 : Nat) + 3 < ULONG_MOD ∧ 1 < 0 + 3) ∧
    ((Materialized_cursor.fetch (scanTable 1 126) noFail 3
        ⟨0, 0, true, 0, true⟩ ⟨false, false⟩).rc = true ∧
     Event.printError 126 ∈ (Materialized_cursor.fetch (scanTable 1 126)
        noFail 3 ⟨0, 0, true, 0, true⟩ ⟨false, false⟩).events ∧
     (Materialized_cursor.fetch (scanTable 1 126) noFail 3
        ⟨0, 0, true, 0, true⟩ ⟨false, false⟩).cursor.is_open = false ∧
     (Materialized_cursor.fetch (scanTable 1 126) noFail 3
        ⟨0, 0, true, 0, true⟩ ⟨false, false⟩).cursor.is_rnd_inited = false ∧
     sentRows (Materialized_cursor.fetch (scanTable 1 126) noFail 3
        ⟨0, 0, true, 0, true⟩ ⟨false, false⟩).events = 1 - 0 ∧
     (∀ p : Nat, Event.sendData p ∈ (Materialized_cursor.fetch
        (scanTable 1 126) noFail 3 ⟨0, 0, true, 0, true⟩
        ⟨false, false⟩).events → p < 1)) :=
  ⟨⟨by decide, by decide, by decide, by decide⟩,
   C4_scan_failure 1 126 3 ⟨0, 0, true, 0, true⟩ ⟨false, false⟩
     (by decide) (by decide) rfl rfl (by decide) (by decide) (by decide)⟩

/-- Claim C5: a `fetch(n)` call in which `send_data` fails for the row
at scan position `s` returns failure immediately without closing the
cursor: the scan stays active (`is_rnd_inited` unchanged), the storage
handler stays attached (`is_open()` unchanged), `fetch_limit` keeps its
full increment of `n`, the status bits are untouched and neither eof
nor a handler error is reported. -/
theorem C5_delivery_failure (k e s n : Nat) (c : Materialized_cursor)
    (st : ServerStatus)
    (hpos : c.pos = c.fetch_count) (hfl : c.fetch_limit = c.fetch_count)
    (hov : c.fetch_count + n < ULONG_MOD)
    (hs1 : c.fetch_count ≤ s) (hs2 : s < k) (hs3 : s < c.fetch_count + n) :
    (Materialized_cursor.fetch (scanTable k e) (failAt s) n c st).rc = true ∧
    (Materialized_cursor.fetch (scanTable k e) (failAt s) n c
        st).cursor.is_rnd_inited = c.is_rnd_inited ∧
    (Materialized_cursor.fetch (scanTable k e) (failAt s) n c
        st).cursor.is_open = c.is_open ∧
    (Materialized_cursor.fetch (scanTable k e) (failAt s) n c
        st).cursor.fetch_limit = c.fetch_limit + n ∧
    (Materialized_cursor.fetch (scanTable k e) (failAt s) n c st).status
        = st ∧
    Event.sendEof ∉ (Materialized_cursor.fetch (scanTable k e) (failAt s)
        n c st).events ∧
    (∀ x : Nat, Event.printError x ∉ (Materialized_cursor.fetch
        (scanTable k e) (failAt s) n c st).events) := by
  rw [fetch_send_fail k e s n c st hpos hfl hov hs1 hs2 hs3]
  refine ⟨rfl, rfl, rfl, by rw [hfl], rfl, ?_, ?_⟩
  · intro h
    rcases List.mem_cons.1 h with h1 | h1
    · exact absurd h1 (by simp)
    · rcases List.mem_append.1 h1 with h2 | h2
      · have := mem_sendEvs_isSendData _ _ _ h2
        simp [isSendData] at this
      · exact absurd (List.mem_singleton.1 h2) (by simp)
  · intro x h
    rcases List.mem_cons.1 h with h1 | h1
    · exact absurd h1 (by simp)
    · rcases List.mem_append.1 h1 with h2 | h2
      · have := mem_sendEvs_isSendData _ _ _ h2
        simp [isSendData] at this
      · exact absurd (List.mem_singleton.1 h2) (by simp)

/-- Witness for C5: `send_data` fails on the second row (position 1) of
a 5-row table during a `fetch(3)` from a fresh cursor. -/
theorem C5_witness :
    ((0 : Nat) + 3 < ULONG_MOD ∧ (0 : Nat) ≤ 1 ∧ 1 < 5 ∧ 1 < 0 + 3) ∧
    ((Materialized_cursor.fetch (scanTable 5 HA_ERR_END_OF_FILE) (failAt 1) 3
        ⟨0, 0, true, 0, true⟩ ⟨false, false⟩).rc = true ∧
     (Materialized_cursor.fetch (scanTable 5 HA_ERR_END_OF_FILE) (failAt 1) 3
        ⟨0, 0, true, 0, true⟩ ⟨false, false⟩).cursor.is_rnd_inited
        = (⟨0, 0, true, 0, true⟩ : Materialized_cursor).is_rnd_inited ∧
     (Materialized_cursor.fetch (scanTable 5 HA_ERR_END_OF_FILE) (failAt 1) 3
        ⟨0, 0, true, 0, true⟩ ⟨false, false⟩).cursor.is_open
        = (⟨0, 0, true, 0, true⟩ : Materialized_cursor).is_open ∧
     (Materialized_cursor.fetch (scanTable 5 HA_ERR_END_OF_FILE) (failAt 1) 3
        ⟨0, 0, true, 0, true⟩ ⟨false, false⟩).cursor.fetch_limit
        = (⟨0, 0, true, 0, true⟩ : Materialized_cursor).fetch_limit + 3 ∧
     (Materialized_cursor.fetch (scanTable 5 HA_ERR_END_OF_FILE) (failAt 1) 3
        ⟨0, 0, true, 0, true⟩ ⟨false, false⟩).status
        = (⟨false, false⟩ : ServerStatus) ∧
     Event.sendEof ∉ (Materialized_cursor.fetch (scanTable 5
        HA_ERR_END_OF_FILE) (failAt 1) 3 ⟨0, 0, true, 0, true⟩
        ⟨false, false⟩).events ∧
     (∀ x : Nat, Event.printError x ∉ (Materialized_cursor.fetch
        (scanTable 5 HA_ERR_END_OF_FILE) (failAt 1) 3 ⟨0, 0, true, 0, true⟩
        ⟨false, false⟩).events)) :=
  ⟨⟨by decide, by decide, by decide, by decide⟩,
   C5_delivery_failure 5 HA_ERR_END_OF_FILE 1 3 ⟨0, 0, true, 0, true⟩
     ⟨false, false⟩ rfl rfl (by decide) (by decide) (by decide) (by decide)⟩

/-- Claim C6 as stated is false at the ulong wrap-around: from a state
with `fetch_limit = fetch_count = 2^64 - 1` (reachable in the model on a
table with `2^64 - 1` rows), `fetch(1)` wraps `fetch_limit` to 0, so the
counter does not increase by the batch size and the invariant
`fetch_count ≤ fetch_limit` fails after the call. -/
theorem C6_counterexample :
    ¬ ((Materialized_cursor.fetch (tableOf (ULONG_MOD - 1)) noFail 1
          ⟨ULONG_MOD - 1, ULONG_MOD - 1, true, ULONG_MOD - 1, true⟩
          ⟨true, false⟩).cursor.fetch_count
        ≤ (Materialized_cursor.fetch (tableOf (ULONG_MOD - 1)) noFail 1
          ⟨ULONG_MOD - 1, ULONG_MOD - 1, true, ULONG_MOD - 1, true⟩
          ⟨true, false⟩).cursor.fetch_limit) ∧
    (Materialized_cursor.fetch (tableOf (ULONG_MOD - 1)) noFail 1
        ⟨ULONG_MOD - 1, ULONG_MOD - 1, true, ULONG_MOD - 1, true⟩
        ⟨true, false⟩).cursor.fetch_limit ≠ (ULONG_MOD - 1) + 1 := by
  decide

/-- Claim C6 amended: provided the updated `fetch_limit` does not
overflow the unsigned 64-bit counter (`fetch_limit + n < 2^64`), the
invariant `fetch_count ≤ fetch_limit` holds after every operation
(`open` resets both to 0; `close` leaves both unchanged; `fetch`
preserves it), the counters are non-decreasing across `fetch`, each
`fetch(n)` increases `fetch_limit` by exactly `n`, and `fetch_count`
increases by exactly the number of rows successfully delivered to the
Result Sink during the call. -/
theorem C6_amended (next : Nat → Nat) (sendFail : Nat → Bool) (n : Nat)
    (prepFails rndInitFails : Bool) (c : Materialized_cursor)
    (st : ServerStatus)
    (hinv : c.fetch_count ≤ c.fetch_limit)
    (hov : c.fetch_limit + n < ULONG_MOD) :
    ((Materialized_cursor.open_cursor prepFails rndInitFails c
        st).cursor.fetch_count
      ≤ (Materialized_cursor.open_cursor prepFails rndInitFails c
        st).cursor.fetch_limit) ∧
    (c.close.fetch_count = c.fetch_count ∧
     c.close.fetch_limit = c.fetch_limit) ∧
    (Materialized_cursor.fetch next sendFail n c st).cursor.fetch_limit
        = c.fetch_limit + n ∧
    (Materialized_cursor.fetch next sendFail n c st).cursor.fetch_count
        = c.fetch_count +
          sentRows (Materialized_cursor.fetch next sendFail n c st).events ∧
    c.fetch_count
        ≤ (Materialized_cursor.fetch next sendFail n c st).cursor.fetch_count ∧
    c.fetch_limit
        ≤ (Materialized_cursor.fetch next sendFail n c st).cursor.fetch_limit ∧
    (Materialized_cursor.fetch next sendFail n c st).cursor.fetch_count
        ≤ (Materialized_cursor.fetch next sendFail n c st).cursor.fetch_limit := by
  obtain ⟨h1, h2, h3, h4⟩ := fetch_counters next sendFail n c st hinv hov
  refine ⟨?_, ⟨?_, ?_⟩, h1, h2, h3, ?_, h4⟩
  · cases prepFails <;> cases rndInitFails <;>
      simp [Materialized_cursor.open_cursor]
  · rw [close_eq]
  · rw [close_eq]
  · omega

/-- Witness for C6 amended: a fresh cursor on a 2-row table fetched
with `fetch(5)`. -/
theorem C6_witness :
    ((0 : Nat) ≤ 0 ∧ (0 : Nat) + 5 < ULONG_MOD) ∧
    (((Materialized_cursor.open_cursor true false ⟨0, 0, true, 0, true⟩
        ⟨false, false⟩).cursor.fetch_count
      ≤ (Materialized_cursor.open_cursor true false ⟨0, 0, true, 0, true⟩
        ⟨false, false⟩).cursor.fetch_limit) ∧
     ((⟨0, 0, true, 0, true⟩ : Materialized_cursor).close.fetch_count = 0 ∧
      (⟨0, 0, true, 0, true⟩ : Materialized_cursor).close.fetch_limit = 0) ∧
     (Materialized_cursor.fetch (tableOf 2) noFail 5 ⟨0, 0, true, 0, true⟩
        ⟨false, false⟩).cursor.fetch_limit = 0 + 5 ∧
     (Materialized_cursor.fetch (tableOf 2) noFail 5 ⟨0, 0, true, 0, true⟩
        ⟨false, false⟩).cursor.fetch_count
        = 0 + sentRows (Materialized_cursor.fetch (tableOf 2) noFail 5
            ⟨0, 0, true, 0, true⟩ ⟨false, false⟩).events ∧
     (0 : Nat) ≤ (Materialized_cursor.fetch (tableOf 2) noFail 5
        ⟨0, 0, true, 0, true⟩ ⟨false, false⟩).cursor.fetch_count ∧
     (0 : Nat) ≤ (Materialized_cursor.fetch (tableOf 2) noFail 5
        ⟨0, 0, true, 0, true⟩ ⟨false, false⟩).cursor.fetch_limit ∧
     (Materialized_cursor.fetch (tableOf 2) noFail 5 ⟨0, 0, true, 0, true⟩
        ⟨false, false⟩).cursor.fetch_count
        ≤ (Materialized_cursor.fetch (tableOf 2) noFail 5
            ⟨0, 0, true, 0, true⟩ ⟨false, false⟩).cursor.fetch_limit) :=
  ⟨⟨by decide, by decide⟩,
   C6_amended (tableOf 2) noFail 5 true false ⟨0, 0, true, 0, true⟩
     ⟨false, false⟩ (by decide) (by decide)⟩

end SqlCursor
